import Mathlib

/-!
Shallow embedding of the InvoiceFlow bulk-upload core:
`models.py` (record types and their `to_quickbooks_json` translators),
`quickbooks_api.py` (entity resolution and response normalization), and
`bulk_upload.py` (the bulk synchronization engine, single-record upload,
and the statistics query).

Remote HTTP interaction is modelled by oracles: each remote call's result
is a parameter (`ApiOutcome`, or an `Except String Json` for the resolver's
query/create calls), so every claim quantifies over the possible responses
of the platform.  JSON values are modelled by the `Json` inductive; `Id`
values returned by the platform are JSON strings per the wire contract.
-/

namespace InvoiceFlow

/-- A JSON value, as carried over the wire and in Python dicts. -/
inductive Json where
  | null
  | bool (b : Bool)
  | num (q : Rat)
  | str (s : String)
  | arr (xs : List Json)
  | obj (fields : List (String × Json))
deriving Repr

/-- First-match association lookup, mirroring Python `dict.get(key)`
(dict keys are unique, so first match is the match). -/
def assocGet : List (String × Json) → String → Option Json
  | [], _ => none
  | (k, v) :: rest, key => if k = key then some v else assocGet rest key

/-- `d.get(key)` on a JSON object; `none` on non-objects or missing keys. -/
def jsonGet : Json → String → Option Json
  | .obj fields, key => assocGet fields key
  | _, _ => none

/-- `d.get(key, {})`: the value at `key`, or the empty object. -/
def jsonGetD (j : Json) (key : String) : Json :=
  (jsonGet j key).getD (.obj [])

/-- The list stored at `key`, or `[]` when absent (mirrors `.get(key, [])`
where the platform stores an array there). -/
def jsonGetArr (j : Json) (key : String) : List Json :=
  match jsonGet j key with
  | some (.arr xs) => xs
  | _ => []

/-- The string stored at `key`, or `none` when absent (mirrors
`response.get('Id')` where the platform stores `Id` as a JSON string). -/
def jsonGetStr (j : Json) (key : String) : Option String :=
  match jsonGet j key with
  | some (.str s) => some s
  | _ => none

/-- A calendar date, as Python `datetime.date`. -/
structure Date where
  year : Nat
  month : Nat
  day : Nat
deriving Repr, DecidableEq

/-- Zero-pad a number to two digits, as in `date.isoformat()`. -/
def pad2 (n : Nat) : String :=
  if n < 10 then "0" ++ toString n else toString n

/-- Zero-pad a number to four digits, as in `date.isoformat()`. -/
def pad4 (n : Nat) : String :=
  if n < 10 then "000" ++ toString n
  else if n < 100 then "00" ++ toString n
  else if n < 1000 then "0" ++ toString n
  else toString n

/-- `date.isoformat()`: the ISO 8601 calendar-date form `YYYY-MM-DD`,
with no time component. -/
def Date.isoformat (d : Date) : String :=
  pad4 d.year ++ "-" ++ pad2 d.month ++ "-" ++ pad2 d.day

/-- `d.isoformat() if d else None`, used for `TxnDate` / `DueDate`. -/
def optDateJson : Option Date → Json
  | some d => .str d.isoformat
  | none => .null

/-- The `Invoice` model of `models.py`: document fields plus sync state
(`quickbooks_id`, `upload_error`, `uploaded_at`).  `uploaded_at`
timestamps are modelled as natural numbers. -/
structure InvoiceRec where
  id : Nat
  customer_name : String
  invoice_date : Option Date
  due_date : Option Date
  invoice_number : String
  line_description : String
  amount : Rat
  tax_code : Option String
  quickbooks_id : Option String
  upload_error : Option String
  uploaded_at : Option Nat
deriving Repr, DecidableEq

/-- The `Bill` model of `models.py`. -/
structure BillRec where
  id : Nat
  vendor_name : String
  bill_date : Option Date
  due_date : Option Date
  bill_number : String
  line_description : String
  amount : Rat
  expense_account : String
  quickbooks_id : Option String
  upload_error : Option String
  uploaded_at : Option Nat
deriving Repr, DecidableEq

/-- Python truthiness of the tax code: `self.tax_code if self.tax_code
else "NON"` — `None` and the empty string both fall back to `"NON"`. -/
def taxCodeValue : Option String → String
  | some s => if s = "" then "NON" else s
  | none => "NON"

/-- `Invoice.to_quickbooks_json` of `models.py`: the pure translation of an
invoice record to the QuickBooks wire schema. -/
def InvoiceRec.to_quickbooks_json (inv : InvoiceRec) : Json :=
  .obj [
    ("Line", .arr [
      .obj [
        ("Amount", .num inv.amount),
        ("DetailType", .str "SalesItemLineDetail"),
        ("SalesItemLineDetail", .obj [
          ("ItemRef", .obj [
            ("value", .str "1"),
            ("name", .str "Services")
          ]),
          ("TaxCodeRef", .obj [
            ("value", .str (taxCodeValue inv.tax_code))
          ])
        ]),
        ("Description", .str inv.line_description)
      ]
    ]),
    ("CustomerRef", .obj [("name", .str inv.customer_name)]),
    ("DocNumber", .str inv.invoice_number),
    ("TxnDate", optDateJson inv.invoice_date),
    ("DueDate", optDateJson inv.due_date)
  ]

/-- `Bill.to_quickbooks_json` of `models.py`. -/
def BillRec.to_quickbooks_json (b : BillRec) : Json :=
  .obj [
    ("Line", .arr [
      .obj [
        ("Amount", .num b.amount),
        ("DetailType", .str "AccountBasedExpenseLineDetail"),
        ("AccountBasedExpenseLineDetail", .obj [
          ("AccountRef", .obj [("name", .str b.expense_account)])
        ]),
        ("Description", .str b.line_description)
      ]
    ]),
    ("VendorRef", .obj [("name", .str b.vendor_name)]),
    ("DocNumber", .str b.bill_number),
    ("TxnDate", optDateJson b.bill_date),
    ("DueDate", optDateJson b.due_date)
  ]

/-! `quickbooks_api.py`: entity resolution and response normalization

Each remote call's result is an oracle parameter: `.ok resp` is the parsed
JSON body of a 2xx response, `.error msg` is the message of the exception
`_make_request` raises on timeout / transport failure / non-2xx / bad body.
The resolvers additionally return the list of entity-creation payloads they
POSTed, so theorems can count create calls. -/

/-- The `customer_data` dict built by `_get_or_create_customer`. -/
def customerCreatePayload (name : String) : Json :=
  .obj [("Name", .str name), ("CompanyName", .str name)]

/-- The `vendor_data` dict built by `_get_or_create_vendor`. -/
def vendorCreatePayload (name : String) : Json :=
  .obj [("Name", .str name), ("CompanyName", .str name)]

/-- The `account_data` dict built by `_get_or_create_account`: a generic
miscellaneous expense account classification. -/
def accountCreatePayload (name : String) : Json :=
  .obj [("Name", .str name), ("AccountType", .str "Expense"),
        ("AccountSubType", .str "OtherMiscellaneousServiceCost")]

/-- `QuickBooksAPI._get_or_create_customer`: query for an exact-name match;
return the first match if any, else POST a create request and return
`response['Customer']`.  `queryCall` / `createCall` are the results of the
two `_make_request` invocations; the second component of a successful
result is the list of create payloads issued (`[]` or one element).
A missing `Customer` key in the create response raises `KeyError`, whose
`str` is the quoted key name. -/
def get_or_create_customer (name : String)
    (queryCall createCall : Except String Json) :
    Except String (Json × List Json) :=
  match queryCall with
  | .error m => .error ("Customer operation failed: " ++ m)
  | .ok queryResp =>
    match jsonGetArr (jsonGetD queryResp "QueryResponse") "Customer" with
    | c :: _ => .ok (c, [])
    | [] =>
      match createCall with
      | .error m => .error ("Customer operation failed: " ++ m)
      | .ok createResp =>
        match jsonGet createResp "Customer" with
        | some c => .ok (c, [customerCreatePayload name])
        | none => .error "Customer operation failed: \x27Customer\x27"

/-- `QuickBooksAPI._get_or_create_vendor`, analogous. -/
def get_or_create_vendor (name : String)
    (queryCall createCall : Except String Json) :
    Except String (Json × List Json) :=
  match queryCall with
  | .error m => .error ("Vendor operation failed: " ++ m)
  | .ok queryResp =>
    match jsonGetArr (jsonGetD queryResp "QueryResponse") "Vendor" with
    | v :: _ => .ok (v, [])
    | [] =>
      match createCall with
      | .error m => .error ("Vendor operation failed: " ++ m)
      | .ok createResp =>
        match jsonGet createResp "Vendor" with
        | some v => .ok (v, [vendorCreatePayload name])
        | none => .error "Vendor operation failed: \x27Vendor\x27"

/-- `QuickBooksAPI._get_or_create_account`, analogous, creating an Expense
account with the miscellaneous-expense subtype when absent. -/
def get_or_create_account (name : String)
    (queryCall createCall : Except String Json) :
    Except String (Json × List Json) :=
  match queryCall with
  | .error m => .error ("Account operation failed: " ++ m)
  | .ok queryResp =>
    match jsonGetArr (jsonGetD queryResp "QueryResponse") "Account" with
    | a :: _ => .ok (a, [])
    | [] =>
      match createCall with
      | .error m => .error ("Account operation failed: " ++ m)
      | .ok createResp =>
        match jsonGet createResp "Account" with
        | some a => .ok (a, [accountCreatePayload name])
        | none => .error "Account operation failed: \x27Account\x27"

/-- The response normalization of `create_invoice` / `create_bill`
(`quickbooks_api.py` lines 88–96 and 128–136): the created object may sit
under a `QueryResponse` envelope (as the first array element) or directly
under its type name; any other shape raises.  Indexing an empty array
raises `IndexError`; the platform stores arrays under the envelope, so a
non-array there is likewise an error (Python would raise a type-dependent
exception; its message is not depended upon). -/
def normalize_created (typeName : String) (resp : Json) : Except String Json :=
  match jsonGet resp "QueryResponse" with
  | some qr =>
    match jsonGet qr typeName with
    | some (.arr (x :: _)) => .ok x
    | some (.arr []) => .error "list index out of range"
    | some _ => .error "unsubscriptable envelope entry"
    | none =>
      match jsonGet resp typeName with
      | some v => .ok v
      | none => .error "Unexpected response format from QuickBooks"
  | none =>
    match jsonGet resp typeName with
    | some v => .ok v
    | none => .error "Unexpected response format from QuickBooks"

/-! `bulk_upload.py`: the bulk synchronization engine -/

/-- The outcome of one document's `create_invoice` / `create_bill` call as
seen by the engine: either the created object (after the envelope
normalization above) or the message of the raised exception. -/
inductive ApiOutcome where
  | ok (resp : Json)
  | err (msg : String)
deriving Repr

/-- One entry of `result['details']` for an invoice.  A success entry has
no `error` key, modelled as `error = none`. -/
structure InvoiceDetail where
  id : Nat
  invoice_number : String
  customer_name : String
  amount : Rat
  status : String
  quickbooks_id : Option String
  message : String
  error : Option String
deriving Repr, DecidableEq

/-- One entry of `result['details']` for a bill. -/
structure BillDetail where
  id : Nat
  bill_number : String
  vendor_name : String
  amount : Rat
  status : String
  quickbooks_id : Option String
  message : String
  error : Option String
deriving Repr, DecidableEq

/-- A per-variant result block `{total, successful, failed, details}`. -/
structure VariantResult (α : Type) where
  total : Nat
  successful : Nat
  failed : Nat
  details : List α
deriving Repr, DecidableEq

/-- The loop body of `_upload_invoices` (lines 88–137): the try/except
around translate → create → record.  Returns the mutated record, the
detail entry appended, and whether the attempt succeeded.  On success the
record gets `quickbooks_id = qb_response.get('Id')` (possibly `None`),
`uploaded_at = now`, `upload_error = None`; on failure only `upload_error`
is written. -/
def processInvoice (invoice : InvoiceRec) (oc : ApiOutcome) (now : Nat) :
    InvoiceRec × InvoiceDetail × Bool :=
  match oc with
  | .ok resp =>
    let inv := { invoice with
      quickbooks_id := jsonGetStr resp "Id",
      uploaded_at := some now,
      upload_error := none }
    (inv,
     ⟨inv.id, inv.invoice_number, inv.customer_name, inv.amount,
      "success", inv.quickbooks_id, "Successfully uploaded to QuickBooks",
      none⟩,
     true)
  | .err m =>
    let inv := { invoice with upload_error := some m }
    (inv,
     ⟨inv.id, inv.invoice_number, inv.customer_name, inv.amount,
      "failed", none, m, some m⟩,
     false)

/-- The loop body of `_upload_bills` (lines 157–206). -/
def processBill (bill : BillRec) (oc : ApiOutcome) (now : Nat) :
    BillRec × BillDetail × Bool :=
  match oc with
  | .ok resp =>
    let b := { bill with
      quickbooks_id := jsonGetStr resp "Id",
      uploaded_at := some now,
      upload_error := none }
    (b,
     ⟨b.id, b.bill_number, b.vendor_name, b.amount,
      "success", b.quickbooks_id, "Successfully uploaded to QuickBooks",
      none⟩,
     true)
  | .err m =>
    let b := { bill with upload_error := some m }
    (b,
     ⟨b.id, b.bill_number, b.vendor_name, b.amount,
      "failed", none, m, some m⟩,
     false)

/-- The accumulated outputs of a variant's upload loop. -/
structure InvoiceLoopOut where
  successful : Nat
  failed : Nat
  details : List InvoiceDetail
  payloads : List Json
  mutated : List InvoiceRec
  persisted : List InvoiceRec
deriving Repr

/-- The accumulated outputs of the bill upload loop. -/
structure BillLoopOut where
  successful : Nat
  failed : Nat
  details : List BillDetail
  payloads : List Json
  mutated : List BillRec
  persisted : List BillRec
deriving Repr

/-- The `for invoice in invoices` loop of `_upload_invoices` (lines
88–145).  Each document is paired with the oracle outcome of its remote
creation call; `commits` gives per-position results of the guarded
`db.session.commit()` (`true` = committed; missing entries default to
`true`).  `payloads` collects the translated wire payloads, one per
document processed — empty input means no remote contact.  `mutated` is
the in-memory record after the attempt; `persisted` is what the attempt's
commit left durable (the pre-attempt record when the commit failed and was
rolled back). -/
def uploadInvoicesLoop (items : List (InvoiceRec × ApiOutcome))
    (commits : List Bool) (now : Nat) : InvoiceLoopOut :=
  match items with
  | [] => ⟨0, 0, [], [], [], []⟩
  | (inv, oc) :: rest =>
    let payload := inv.to_quickbooks_json
    let (inv2, d, succ) := processInvoice inv oc now
    let committed := commits.headD true
    let out := uploadInvoicesLoop rest commits.tail now
    ⟨(if succ then out.successful + 1 else out.successful),
     (if succ then out.failed else out.failed + 1),
     d :: out.details,
     payload :: out.payloads,
     inv2 :: out.mutated,
     (if committed then inv2 else inv) :: out.persisted⟩

/-- The `for bill in bills` loop of `_upload_bills` (lines 157–214). -/
def uploadBillsLoop (items : List (BillRec × ApiOutcome))
    (commits : List Bool) (now : Nat) : BillLoopOut :=
  match items with
  | [] => ⟨0, 0, [], [], [], []⟩
  | (b, oc) :: rest =>
    let payload := b.to_quickbooks_json
    let (b2, d, succ) := processBill b oc now
    let committed := commits.headD true
    let out := uploadBillsLoop rest commits.tail now
    ⟨(if succ then out.successful + 1 else out.successful),
     (if succ then out.failed else out.failed + 1),
     d :: out.details,
     payload :: out.payloads,
     b2 :: out.mutated,
     (if committed then b2 else b) :: out.persisted⟩

/-- `BulkUploader._upload_invoices`: the per-variant result block plus the
loop's side outputs. -/
def upload_invoices (items : List (InvoiceRec × ApiOutcome))
    (commits : List Bool) (now : Nat) :
    VariantResult InvoiceDetail × InvoiceLoopOut :=
  let out := uploadInvoicesLoop items commits now
  (⟨items.length, out.successful, out.failed, out.details⟩, out)

/-- `BulkUploader._upload_bills`. -/
def upload_bills (items : List (BillRec × ApiOutcome))
    (commits : List Bool) (now : Nat) :
    VariantResult BillDetail × BillLoopOut :=
  let out := uploadBillsLoop items commits now
  (⟨items.length, out.successful, out.failed, out.details⟩, out)

/-- The `results['summary']` block. -/
structure Summary where
  total_processed : Nat
  total_successful : Nat
  total_failed : Nat
  upload_timestamp : Nat
deriving Repr, DecidableEq

/-- The full report returned by `upload_all`. -/
structure BatchReport where
  invoices : VariantResult InvoiceDetail
  bills : VariantResult BillDetail
  summary : Summary
deriving Repr, DecidableEq

/-- `BulkUploader.upload_all` (lines 20–77): initialize zeroed per-variant
blocks (with totals already set to the input lengths), run each variant's
loop only when its list is non-empty, then sum the per-variant counts into
the summary.  Also returns the concatenated list of wire payloads sent,
so theorems can speak about remote contact. -/
def upload_all (invItems : List (InvoiceRec × ApiOutcome))
    (billItems : List (BillRec × ApiOutcome))
    (invCommits billCommits : List Bool) (now : Nat) :
    BatchReport × List Json :=
  let invInit : VariantResult InvoiceDetail := ⟨invItems.length, 0, 0, []⟩
  let billInit : VariantResult BillDetail := ⟨billItems.length, 0, 0, []⟩
  let invR :=
    if invItems.isEmpty then (invInit, ([] : List Json))
    else
      let u := upload_invoices invItems invCommits now
      (u.1, u.2.payloads)
  let billR :=
    if billItems.isEmpty then (billInit, ([] : List Json))
    else
      let u := upload_bills billItems billCommits now
      (u.1, u.2.payloads)
  (⟨invR.1, billR.1,
    ⟨invItems.length + billItems.length,
     invR.1.successful + billR.1.successful,
     invR.1.failed + billR.1.failed,
     now⟩⟩,
   invR.2 ++ billR.2)

/-- The dict returned by `upload_single_invoice` / `upload_single_bill`:
a success result has no `error` key (`error = none`), a failure result has
no `quickbooks_id` key (`quickbooks_id = none`). -/
structure SingleResult where
  status : String
  quickbooks_id : Option String
  message : String
  error : Option String
deriving Repr, DecidableEq

/-- `BulkUploader.upload_single_invoice` (lines 217–244): identical
per-record semantics to the batch loop body, returning a status dict. -/
def upload_single_invoice (invoice : InvoiceRec) (oc : ApiOutcome)
    (now : Nat) : InvoiceRec × SingleResult :=
  match oc with
  | .ok resp =>
    let inv := { invoice with
      quickbooks_id := jsonGetStr resp "Id",
      uploaded_at := some now,
      upload_error := none }
    (inv, ⟨"success", inv.quickbooks_id,
           "Successfully uploaded to QuickBooks", none⟩)
  | .err m =>
    let inv := { invoice with upload_error := some m }
    (inv, ⟨"failed", none, "Upload failed: " ++ m, some m⟩)

/-- `BulkUploader.upload_single_bill` (lines 246–273). -/
def upload_single_bill (bill : BillRec) (oc : ApiOutcome)
    (now : Nat) : BillRec × SingleResult :=
  match oc with
  | .ok resp =>
    let b := { bill with
      quickbooks_id := jsonGetStr resp "Id",
      uploaded_at := some now,
      upload_error := none }
    (b, ⟨"success", b.quickbooks_id,
         "Successfully uploaded to QuickBooks", none⟩)
  | .err m =>
    let b := { bill with upload_error := some m }
    (b, ⟨"failed", none, "Upload failed: " ++ m, some m⟩)

/-- One variant's block in the statistics result. -/
structure VariantStats where
  total : Nat
  uploaded : Nat
  pending : Nat
  failed : Nat
deriving Repr, DecidableEq

/-- The structure returned by `get_upload_statistics`. -/
structure Stats where
  invoices : VariantStats
  bills : VariantStats
  overall : VariantStats
deriving Repr, DecidableEq

/-- `BulkUploader.get_upload_statistics` (lines 275–308) over the persisted
record collections: `uploaded` counts records with a non-null
`quickbooks_id`, `failed` counts records with a non-null `upload_error`,
`pending = total - uploaded`. -/
def get_upload_statistics (invoices : List InvoiceRec)
    (bills : List BillRec) : Stats :=
  let ti := invoices.length
  let ui := (invoices.filter (fun i => i.quickbooks_id.isSome)).length
  let fi := (invoices.filter (fun i => i.upload_error.isSome)).length
  let tb := bills.length
  let ub := (bills.filter (fun b => b.quickbooks_id.isSome)).length
  let fb := (bills.filter (fun b => b.upload_error.isSome)).length
  ⟨⟨ti, ui, ti - ui, fi⟩,
   ⟨tb, ub, tb - ub, fb⟩,
   ⟨ti + tb, ui + ub, (ti - ui) + (tb - ub), fi + fb⟩⟩

/-! Helper definitions used in theorem statements -/

/-- Whether an API outcome is an exception. -/
def ApiOutcome.isErr : ApiOutcome → Bool
  | .ok _ => false
  | .err _ => true

/-- The number of documents in a batch whose remote call raised. -/
def countErrs {α : Type} : List (α × ApiOutcome) → Nat
  | [] => 0
  | (_, .ok _) :: rest => countErrs rest
  | (_, .err _) :: rest => countErrs rest + 1

/-- The failure detail entry `_upload_invoices` appends for an invoice
whose attempt raised with message `m`. -/
def invoiceFailureDetail (inv : InvoiceRec) (m : String) : InvoiceDetail :=
  ⟨inv.id, inv.invoice_number, inv.customer_name, inv.amount,
   "failed", none, m, some m⟩

/-- The failure detail entry `_upload_bills` appends. -/
def billFailureDetail (b : BillRec) (m : String) : BillDetail :=
  ⟨b.id, b.bill_number, b.vendor_name, b.amount,
   "failed", none, m, some m⟩

/-- The components of the loop output that the report and the in-memory
records are built from — everything except the persisted snapshot. -/
def InvoiceLoopOut.core (o : InvoiceLoopOut) :
    Nat × Nat × List InvoiceDetail × List Json × List InvoiceRec :=
  (o.successful, o.failed, o.details, o.payloads, o.mutated)

/-- Bill analogue of `InvoiceLoopOut.core`. -/
def BillLoopOut.core (o : BillLoopOut) :
    Nat × Nat × List BillDetail × List Json × List BillRec :=
  (o.successful, o.failed, o.details, o.payloads, o.mutated)

/-- Condition A of the mutual-exclusivity invariant: remote id set and
error null. -/
def hasIdNoError (r : InvoiceRec) : Prop :=
  r.quickbooks_id.isSome = true ∧ r.upload_error = none

/-- Condition B: error set. -/
def hasError (r : InvoiceRec) : Prop :=
  r.upload_error.isSome = true

/-- Exactly one of the two conditions of the claimed invariant holds. -/
def exclusiveSync (r : InvoiceRec) : Prop :=
  (hasIdNoError r ∧ ¬ hasError r) ∨ (hasError r ∧ ¬ hasIdNoError r)

/-- Every successful outcome carries an `Id` (vacuously true of raised
outcomes) — the side condition under which the mutual-exclusivity
invariant is restored. -/
def hasIdIfOk : ApiOutcome → Bool
  | .ok resp => (jsonGetStr resp "Id").isSome
  | .err _ => true

/-- A sample invoice record in the pending state. -/
def sampleInvoice : InvoiceRec :=
  ⟨1, "Acme", some ⟨2024, 1, 5⟩, none, "INV-1", "Consulting services",
   100, none, none, none, none⟩

/-- A sample bill record in the pending state. -/
def sampleBill : BillRec :=
  ⟨2, "Supplies Co", some ⟨2024, 2, 3⟩, some ⟨2024, 3, 3⟩, "BILL-1",
   "Office supplies", 50, "Office Expenses", none, none, none⟩

/-- A sample created-object response carrying an `Id`. -/
def respWithId : Json :=
  .obj [("Id", .str "77"), ("DocNumber", .str "INV-1")]

/-- A sample created-object response with no `Id` key. -/
def respWithoutId : Json :=
  .obj [("DocNumber", .str "INV-1")]

/-- The sample invoice after a successful attempt (remote id `"77"`)
followed by a failed re-attempt (timeout), as the batch loop body leaves
it. -/
def retriedInvoice : InvoiceRec :=
  (processInvoice (processInvoice sampleInvoice (.ok respWithId) 0).1
    (.err "Request timeout: invoice") 1).1

/-! Supporting lemmas about the upload loops -/

theorem uploadInvoicesLoop_counts (items : List (InvoiceRec × ApiOutcome))
    (cs : List Bool) (now : Nat) :
    (uploadInvoicesLoop items cs now).successful
      + (uploadInvoicesLoop items cs now).failed = items.length := by
  induction items generalizing cs with
  | nil => simp [uploadInvoicesLoop]
  | cons hd tl ih =>
    obtain ⟨inv, oc⟩ := hd
    have h := ih cs.tail
    cases oc <;> simp [uploadInvoicesLoop, processInvoice] <;> omega

theorem uploadInvoicesLoop_details_length
    (items : List (InvoiceRec × ApiOutcome)) (cs : List Bool) (now : Nat) :
    (uploadInvoicesLoop items cs now).details.length = items.length := by
  induction items generalizing cs with
  | nil => simp [uploadInvoicesLoop]
  | cons hd tl ih =>
    obtain ⟨inv, oc⟩ := hd
    cases oc <;> simp [uploadInvoicesLoop, processInvoice, ih cs.tail]

theorem uploadInvoicesLoop_failed_eq
    (items : List (InvoiceRec × ApiOutcome)) (cs : List Bool) (now : Nat) :
    (uploadInvoicesLoop items cs now).failed = countErrs items := by
  induction items generalizing cs with
  | nil => simp [uploadInvoicesLoop, countErrs]
  | cons hd tl ih =>
    obtain ⟨inv, oc⟩ := hd
    cases oc <;> simp [uploadInvoicesLoop, processInvoice, countErrs, ih cs.tail]

theorem uploadInvoicesLoop_details_get
    (items : List (InvoiceRec × ApiOutcome)) (cs : List Bool) (now i : Nat)
    (inv : InvoiceRec) (m : String)
    (h : items.get? i = some (inv, ApiOutcome.err m)) :
    (uploadInvoicesLoop items cs now).details.get? i
      = some (invoiceFailureDetail inv m) := by
  induction items generalizing cs i with
  | nil => simp at h
  | cons hd tl ih =>
    obtain ⟨a, oca⟩ := hd
    cases i with
    | zero =>
      simp only [List.get?, Option.some.injEq, Prod.mk.injEq] at h
      obtain ⟨h1, h2⟩ := h
      subst h1; subst h2
      simp [uploadInvoicesLoop, processInvoice, invoiceFailureDetail, List.get?]
    | succ n =>
      simp only [List.get?] at h
      cases oca <;>
        simpa [uploadInvoicesLoop, processInvoice, List.get?]
          using ih cs.tail n h

theorem uploadInvoicesLoop_core_commit_indep
    (items : List (InvoiceRec × ApiOutcome)) (cs cs' : List Bool)
    (now : Nat) :
    (uploadInvoicesLoop items cs now).core
      = (uploadInvoicesLoop items cs' now).core := by
  induction items generalizing cs cs' with
  | nil => rfl
  | cons hd tl ih =>
    obtain ⟨inv, oc⟩ := hd
    have h := ih cs.tail cs'.tail
    cases oc <;>
      simp only [uploadInvoicesLoop, processInvoice, InvoiceLoopOut.core,
        Prod.mk.injEq] at h ⊢ <;>
      obtain ⟨h1, h2, h3, h4, h5⟩ := h <;>
      simp [h1, h2, h3, h4, h5]

theorem uploadInvoicesLoop_persisted_commit_failure
    (items : List (InvoiceRec × ApiOutcome)) (cs : List Bool) (now i : Nat)
    (inv : InvoiceRec) (oc : ApiOutcome)
    (h : items.get? i = some (inv, oc)) (hc : cs.get? i = some false) :
    (uploadInvoicesLoop items cs now).persisted.get? i = some inv := by
  induction items generalizing cs i with
  | nil => simp at h
  | cons hd tl ih =>
    obtain ⟨a, oca⟩ := hd
    cases cs with
    | nil => simp at hc
    | cons c ct =>
      cases i with
      | zero =>
        simp only [List.get?, Option.some.injEq, Prod.mk.injEq] at h hc
        obtain ⟨h1, h2⟩ := h
        subst h1; subst h2; subst hc
        cases oca <;>
          simp [uploadInvoicesLoop, processInvoice, List.get?]
      | succ n =>
        simp only [List.get?] at h hc
        cases oca <;>
          simpa [uploadInvoicesLoop, processInvoice, List.get?]
            using ih ct n h hc

theorem uploadBillsLoop_counts (items : List (BillRec × ApiOutcome))
    (cs : List Bool) (now : Nat) :
    (uploadBillsLoop items cs now).successful
      + (uploadBillsLoop items cs now).failed = items.length := by
  induction items generalizing cs with
  | nil => simp [uploadBillsLoop]
  | cons hd tl ih =>
    obtain ⟨b, oc⟩ := hd
    have h := ih cs.tail
    cases oc <;> simp [uploadBillsLoop, processBill] <;> omega

theorem uploadBillsLoop_details_length
    (items : List (BillRec × ApiOutcome)) (cs : List Bool) (now : Nat) :
    (uploadBillsLoop items cs now).details.length = items.length := by
  induction items generalizing cs with
  | nil => simp [uploadBillsLoop]
  | cons hd tl ih =>
    obtain ⟨b, oc⟩ := hd
    cases oc <;> simp [uploadBillsLoop, processBill, ih cs.tail]

theorem uploadBillsLoop_failed_eq
    (items : List (BillRec × ApiOutcome)) (cs : List Bool) (now : Nat) :
    (uploadBillsLoop items cs now).failed = countErrs items := by
  induction items generalizing cs with
  | nil => simp [uploadBillsLoop, countErrs]
  | cons hd tl ih =>
    obtain ⟨b, oc⟩ := hd
    cases oc <;> simp [uploadBillsLoop, processBill, countErrs, ih cs.tail]

theorem uploadBillsLoop_details_get
    (items : List (BillRec × ApiOutcome)) (cs : List Bool) (now i : Nat)
    (b : BillRec) (m : String)
    (h : items.get? i = some (b, ApiOutcome.err m)) :
    (uploadBillsLoop items cs now).details.get? i
      = some (billFailureDetail b m) := by
  induction items generalizing cs i with
  | nil => simp at h
  | cons hd tl ih =>
    obtain ⟨a, oca⟩ := hd
    cases i with
    | zero =>
      simp only [List.get?, Option.some.injEq, Prod.mk.injEq] at h
      obtain ⟨h1, h2⟩ := h
      subst h1; subst h2
      simp [uploadBillsLoop, processBill, billFailureDetail, List.get?]
    | succ n =>
      simp only [List.get?] at h
      cases oca <;>
        simpa [uploadBillsLoop, processBill, List.get?]
          using ih cs.tail n h

theorem uploadBillsLoop_core_commit_indep
    (items : List (BillRec × ApiOutcome)) (cs cs' : List Bool)
    (now : Nat) :
    (uploadBillsLoop items cs now).core
      = (uploadBillsLoop items cs' now).core := by
  induction items generalizing cs cs' with
  | nil => rfl
  | cons hd tl ih =>
    obtain ⟨b, oc⟩ := hd
    have h := ih cs.tail cs'.tail
    cases oc <;>
      simp only [uploadBillsLoop, processBill, BillLoopOut.core,
        Prod.mk.injEq] at h ⊢ <;>
      obtain ⟨h1, h2, h3, h4, h5⟩ := h <;>
      simp [h1, h2, h3, h4, h5]

theorem uploadBillsLoop_persisted_commit_failure
    (items : List (BillRec × ApiOutcome)) (cs : List Bool) (now i : Nat)
    (b : BillRec) (oc : ApiOutcome)
    (h : items.get? i = some (b, oc)) (hc : cs.get? i = some false) :
    (uploadBillsLoop items cs now).persisted.get? i = some b := by
  induction items generalizing cs i with
  | nil => simp at h
  | cons hd tl ih =>
    obtain ⟨a, oca⟩ := hd
    cases cs with
    | nil => simp at hc
    | cons c ct =>
      cases i with
      | zero =>
        simp only [List.get?, Option.some.injEq, Prod.mk.injEq] at h hc
        obtain ⟨h1, h2⟩ := h
        subst h1; subst h2; subst hc
        cases oca <;>
          simp [uploadBillsLoop, processBill, List.get?]
      | succ n =>
        simp only [List.get?] at h hc
        cases oca <;>
          simpa [uploadBillsLoop, processBill, List.get?]
            using ih ct n h hc

/-- The report of `upload_all` in terms of the two loops.  Holds also for
empty inputs because an empty loop yields the zeroed block the code
initializes. -/
theorem upload_all_report_eq (invItems : List (InvoiceRec × ApiOutcome))
    (billItems : List (BillRec × ApiOutcome))
    (ic bc : List Bool) (now : Nat) :
    (upload_all invItems billItems ic bc now).1
      = ⟨⟨invItems.length, (uploadInvoicesLoop invItems ic now).successful,
          (uploadInvoicesLoop invItems ic now).failed,
          (uploadInvoicesLoop invItems ic now).details⟩,
         ⟨billItems.length, (uploadBillsLoop billItems bc now).successful,
          (uploadBillsLoop billItems bc now).failed,
          (uploadBillsLoop billItems bc now).details⟩,
         ⟨invItems.length + billItems.length,
          (uploadInvoicesLoop invItems ic now).successful
            + (uploadBillsLoop billItems bc now).successful,
          (uploadInvoicesLoop invItems ic now).failed
            + (uploadBillsLoop billItems bc now).failed,
          now⟩⟩ := by
  cases invItems <;> cases billItems <;>
    simp [upload_all, upload_invoices, upload_bills, uploadInvoicesLoop,
      uploadBillsLoop]

/-- C9: when both input lists are empty, `upload_all` makes zero remote
calls (no payload is ever sent), raises no error (it is a total function),
and returns a report whose per-variant totals, successful and failed
counts are all zero with empty details lists. -/
theorem c9_empty_batch_no_calls (ic bc : List Bool) (now : Nat) :
    upload_all [] [] ic bc now
      = (⟨⟨0, 0, 0, []⟩, ⟨0, 0, 0, []⟩, ⟨0, 0, 0, now⟩⟩, []) := rfl

/-- C3: for every pair of input lists, the summary of the report returned
by `upload_all` satisfies `total_processed = len(invoices) + len(bills)`
and `total_successful + total_failed = total_processed`, the summary
counts being the sums of the per-variant successful and failed counts. -/
theorem c3_summary_totals (invItems : List (InvoiceRec × ApiOutcome))
    (billItems : List (BillRec × ApiOutcome))
    (ic bc : List Bool) (now : Nat) :
    (upload_all invItems billItems ic bc now).1.summary.total_processed
      = invItems.length + billItems.length ∧
    (upload_all invItems billItems ic bc now).1.summary.total_successful
        + (upload_all invItems billItems ic bc now).1.summary.total_failed
      = (upload_all invItems billItems ic bc now).1.summary.total_processed ∧
    (upload_all invItems billItems ic bc now).1.summary.total_successful
      = (upload_all invItems billItems ic bc now).1.invoices.successful
        + (upload_all invItems billItems ic bc now).1.bills.successful ∧
    (upload_all invItems billItems ic bc now).1.summary.total_failed
      = (upload_all invItems billItems ic bc now).1.invoices.failed
        + (upload_all invItems billItems ic bc now).1.bills.failed := by
  have hi := uploadInvoicesLoop_counts invItems ic now
  have hb := uploadBillsLoop_counts billItems bc now
  rw [upload_all_report_eq]
  refine ⟨rfl, ?_, rfl, rfl⟩
  simp only []
  omega

/-- C1: for every batch, any per-document error raised by the sync attempt
is caught at the document boundary: the entry recorded for that document
has status `failed` and carries the error message, the failed count equals
exactly the number of raising documents (each increments it by exactly 1),
and the batch continues — `upload_all` returns a complete report with one
detail entry per input document of each variant. -/
theorem c1_document_errors_contained
    (invItems : List (InvoiceRec × ApiOutcome))
    (billItems : List (BillRec × ApiOutcome))
    (ic bc : List Bool) (now : Nat) :
    (upload_all invItems billItems ic bc now).1.invoices.details.length
      = invItems.length ∧
    (upload_all invItems billItems ic bc now).1.bills.details.length
      = billItems.length ∧
    (upload_all invItems billItems ic bc now).1.invoices.failed
      = countErrs invItems ∧
    (upload_all invItems billItems ic bc now).1.bills.failed
      = countErrs billItems ∧
    (∀ i inv m, invItems.get? i = some (inv, ApiOutcome.err m) →
      (upload_all invItems billItems ic bc now).1.invoices.details.get? i
        = some (invoiceFailureDetail inv m)) ∧
    (∀ i b m, billItems.get? i = some (b, ApiOutcome.err m) →
      (upload_all invItems billItems ic bc now).1.bills.details.get? i
        = some (billFailureDetail b m)) := by
  rw [upload_all_report_eq]
  exact ⟨uploadInvoicesLoop_details_length invItems ic now,
    uploadBillsLoop_details_length billItems bc now,
    uploadInvoicesLoop_failed_eq invItems ic now,
    uploadBillsLoop_failed_eq billItems bc now,
    fun i inv m h => uploadInvoicesLoop_details_get invItems ic now i inv m h,
    fun i b m h => uploadBillsLoop_details_get billItems bc now i b m h⟩

/-- C1 witness: a concrete one-invoice batch whose remote call times out
yields a failure detail at position 0 with the timeout message. -/
theorem c1_document_errors_contained_witness :
    (upload_all [(sampleInvoice, ApiOutcome.err "Request timeout: invoice")]
        [] [] [] 0).1.invoices.details.get? 0
      = some (invoiceFailureDetail sampleInvoice "Request timeout: invoice") :=
  (c1_document_errors_contained
      [(sampleInvoice, ApiOutcome.err "Request timeout: invoice")]
      [] [] [] 0).2.2.2.2.1 0 sampleInvoice "Request timeout: invoice" rfl

/-- C2 counterexample: a sync attempt whose remote call succeeds with a
response lacking an `Id` key leaves the document with `quickbooks_id =
None` and `upload_error = None` — neither of the two claimed conditions
holds, so the "exactly one of the two" invariant fails as stated. -/
theorem c2_mutual_exclusivity_counterexample :
    ¬ exclusiveSync (processInvoice sampleInvoice
        (ApiOutcome.ok respWithoutId) 0).1 := by
  unfold exclusiveSync hasIdNoError hasError
  decide

/-- C2 (amended): after any sync attempt — batch loop body or single
upload — exactly one of `{quickbooks_id set ∧ upload_error null}` /
`{upload_error set}` holds, provided every successful remote response
carries an `Id` key; a success response without `Id` instead clears the
error and sets `quickbooks_id` to `None`, satisfying neither condition. -/
theorem c2_sync_outcome_exclusive (inv : InvoiceRec) (oc : ApiOutcome)
    (now : Nat) (h : hasIdIfOk oc = true) :
    exclusiveSync (processInvoice inv oc now).1 ∧
    exclusiveSync (upload_single_invoice inv oc now).1 := by
  cases oc with
  | ok resp =>
    simp only [hasIdIfOk] at h
    constructor <;>
      exact Or.inl ⟨⟨h, rfl⟩, by simp [hasError, processInvoice,
        upload_single_invoice]⟩
  | err m =>
    constructor <;>
      exact Or.inr ⟨rfl, by simp [hasIdNoError, processInvoice,
        upload_single_invoice]⟩

/-- C2 witness: the amended invariant at a concrete success response
carrying an `Id`. -/
theorem c2_sync_outcome_exclusive_witness :
    exclusiveSync (processInvoice sampleInvoice
        (ApiOutcome.ok respWithId) 0).1 ∧
    exclusiveSync (upload_single_invoice sampleInvoice
        (ApiOutcome.ok respWithId) 0).1 :=
  c2_sync_outcome_exclusive sampleInvoice (ApiOutcome.ok respWithId) 0 rfl

/-- C7 counterexample: after a success (remote id `"77"`) followed by a
failed re-attempt, the document carries `upload_error` while its
`quickbooks_id` is still `"77"`, and the statistics query counts it both
as uploaded and as failed (not as pending) — refuting the claim that the
error annotation can co-occur only with the pending state. -/
theorem c7_error_with_uploaded_counterexample :
    retriedInvoice.upload_error.isSome = true ∧
    retriedInvoice.quickbooks_id = some "77" ∧
    (get_upload_statistics [retriedInvoice] []).invoices.uploaded = 1 ∧
    (get_upload_statistics [retriedInvoice] []).invoices.failed = 1 ∧
    (get_upload_statistics [retriedInvoice] []).invoices.pending = 0 := by
  decide

/-- C7 (amended): the error annotation never changes `quickbooks_id` — a
failed attempt preserves whatever remote id the document had, so
`upload_error` co-occurs only with the pending state when the document
was pending before the attempt; after an earlier success, a failed
re-attempt leaves both `quickbooks_id` and `upload_error` set. -/
theorem c7_error_annotation_preserves_prior_id (inv : InvoiceRec)
    (oc : ApiOutcome) (now : Nat) :
    ((processInvoice inv oc now).1.upload_error.isSome = true →
      (processInvoice inv oc now).1.quickbooks_id = inv.quickbooks_id) ∧
    (inv.quickbooks_id = none →
      (processInvoice inv oc now).1.upload_error.isSome = true →
      (processInvoice inv oc now).1.quickbooks_id = none) ∧
    ((upload_single_invoice inv oc now).1.upload_error.isSome = true →
      (upload_single_invoice inv oc now).1.quickbooks_id
        = inv.quickbooks_id) ∧
    (inv.quickbooks_id = none →
      (upload_single_invoice inv oc now).1.upload_error.isSome = true →
      (upload_single_invoice inv oc now).1.quickbooks_id = none) := by
  cases oc <;> simp [processInvoice, upload_single_invoice]

/-- C7 witness: a failed attempt on a pending document leaves it pending
(no remote id). -/
theorem c7_error_annotation_preserves_prior_id_witness :
    (processInvoice sampleInvoice (ApiOutcome.err "boom") 0).1.quickbooks_id
      = none :=
  (c7_error_annotation_preserves_prior_id sampleInvoice
    (ApiOutcome.err "boom") 0).2.1 rfl rfl

/-- C8: a failed attempt (batch or single) leaves `quickbooks_id`
unchanged; any change of `quickbooks_id` comes from a successful remote
response, whose `Id` it copies; and a successful attempt clears any prior
`upload_error`. -/
theorem c8_no_fabricated_remote_id (inv : InvoiceRec) (oc : ApiOutcome)
    (now : Nat) :
    (∀ m, oc = ApiOutcome.err m →
      (processInvoice inv oc now).1.quickbooks_id = inv.quickbooks_id ∧
      (upload_single_invoice inv oc now).1.quickbooks_id
        = inv.quickbooks_id) ∧
    (∀ resp, oc = ApiOutcome.ok resp →
      (processInvoice inv oc now).1.upload_error = none ∧
      (processInvoice inv oc now).1.quickbooks_id = jsonGetStr resp "Id" ∧
      (upload_single_invoice inv oc now).1.upload_error = none ∧
      (upload_single_invoice inv oc now).1.quickbooks_id
        = jsonGetStr resp "Id") ∧
    ((processInvoice inv oc now).1.quickbooks_id ≠ inv.quickbooks_id →
      ∃ resp, oc = ApiOutcome.ok resp ∧
        (processInvoice inv oc now).1.quickbooks_id
          = jsonGetStr resp "Id") := by
  cases oc with
  | ok resp =>
    refine ⟨?_, ?_, ?_⟩
    · intro m h
      exact nomatch h
    · intro r h
      injection h with hr
      subst hr
      exact ⟨rfl, rfl, rfl, rfl⟩
    · intro _
      exact ⟨resp, rfl, rfl⟩
  | err m0 =>
    refine ⟨?_, ?_, ?_⟩
    · intro m' h
      injection h with hm
      subst hm
      exact ⟨rfl, rfl⟩
    · intro r h
      exact nomatch h
    · intro hne
      exact absurd rfl hne

/-- C8 witness: a concrete failed attempt preserves the prior remote id
`"77"`, and a concrete success response overwrites it with the response's
`Id`. -/
theorem c8_no_fabricated_remote_id_witness :
    ((processInvoice retriedInvoice (ApiOutcome.err "boom") 2).1.quickbooks_id
        = retriedInvoice.quickbooks_id) ∧
    ((processInvoice retriedInvoice (ApiOutcome.ok respWithId)
        2).1.upload_error = none) :=
  ⟨((c8_no_fabricated_remote_id retriedInvoice (ApiOutcome.err "boom") 2).1
      "boom" rfl).1,
   ((c8_no_fabricated_remote_id retriedInvoice (ApiOutcome.ok respWithId)
      2).2.1 respWithId rfl).1⟩

/-- C6: the per-document persistence commit is isolated from the sync
attempt — the report returned by `upload_all` and the in-memory records
are identical for any pattern of commit successes/failures, the batch
always yields one detail per document, and a failed (rolled-back) commit
leaves that document's persisted state exactly as it was before the
attempt. -/
theorem c6_commit_failure_isolated
    (invItems : List (InvoiceRec × ApiOutcome))
    (billItems : List (BillRec × ApiOutcome))
    (ic ic' bc bc' : List Bool) (now : Nat) :
    (upload_all invItems billItems ic bc now).1
      = (upload_all invItems billItems ic' bc' now).1 ∧
    (uploadInvoicesLoop invItems ic now).mutated
      = (uploadInvoicesLoop invItems ic' now).mutated ∧
    (uploadBillsLoop billItems bc now).mutated
      = (uploadBillsLoop billItems bc' now).mutated ∧
    (∀ i inv oc, invItems.get? i = some (inv, oc) →
      ic.get? i = some false →
      (uploadInvoicesLoop invItems ic now).persisted.get? i = some inv) ∧
    (∀ i b oc, billItems.get? i = some (b, oc) →
      bc.get? i = some false →
      (uploadBillsLoop billItems bc now).persisted.get? i = some b) := by
  have hci := uploadInvoicesLoop_core_commit_indep invItems ic ic' now
  have hcb := uploadBillsLoop_core_commit_indep billItems bc bc' now
  simp only [InvoiceLoopOut.core, BillLoopOut.core, Prod.mk.injEq]
    at hci hcb
  obtain ⟨his, hif, hid, hip, him⟩ := hci
  obtain ⟨hbs, hbf, hbd, hbp, hbm⟩ := hcb
  refine ⟨?_, him, hbm, ?_, ?_⟩
  · rw [upload_all_report_eq, upload_all_report_eq, his, hif, hid, hbs,
      hbf, hbd]
  · intro i inv oc h hc
    exact uploadInvoicesLoop_persisted_commit_failure invItems ic now i
      inv oc h hc
  · intro i b oc h hc
    exact uploadBillsLoop_persisted_commit_failure billItems bc now i
      b oc h hc

/-- C6 witness: with a one-invoice batch whose commit fails, the persisted
state at position 0 is the pre-attempt record. -/
theorem c6_commit_failure_isolated_witness :
    (uploadInvoicesLoop [(sampleInvoice, ApiOutcome.err "boom")] [false]
        0).persisted.get? 0 = some sampleInvoice :=
  (c6_commit_failure_isolated [(sampleInvoice, ApiOutcome.err "boom")] []
      [false] [true] [] [] 0).2.2.2.1 0 sampleInvoice
    (ApiOutcome.err "boom") rfl rfl

/-- C4: each resolver first queries for an exact-name match; at least one
match means the first match is returned and no create request is issued;
zero matches means exactly one create request is issued carrying the name
(for Account, with `AccountType` Expense and the miscellaneous-expense
subtype) and the created reference is returned. -/
theorem c4_resolver_find_or_create (name : String) (q : Json)
    (cc : Except String Json) :
    (∀ c rest,
      jsonGetArr (jsonGetD q "QueryResponse") "Customer" = c :: rest →
      get_or_create_customer name (Except.ok q) cc = Except.ok (c, [])) ∧
    (∀ cr c,
      jsonGetArr (jsonGetD q "QueryResponse") "Customer" = [] →
      jsonGet cr "Customer" = some c →
      get_or_create_customer name (Except.ok q) (Except.ok cr)
        = Except.ok (c, [customerCreatePayload name])) ∧
    (∀ v rest,
      jsonGetArr (jsonGetD q "QueryResponse") "Vendor" = v :: rest →
      get_or_create_vendor name (Except.ok q) cc = Except.ok (v, [])) ∧
    (∀ cr v,
      jsonGetArr (jsonGetD q "QueryResponse") "Vendor" = [] →
      jsonGet cr "Vendor" = some v →
      get_or_create_vendor name (Except.ok q) (Except.ok cr)
        = Except.ok (v, [vendorCreatePayload name])) ∧
    (∀ a rest,
      jsonGetArr (jsonGetD q "QueryResponse") "Account" = a :: rest →
      get_or_create_account name (Except.ok q) cc = Except.ok (a, [])) ∧
    (∀ cr a,
      jsonGetArr (jsonGetD q "QueryResponse") "Account" = [] →
      jsonGet cr "Account" = some a →
      get_or_create_account name (Except.ok q) (Except.ok cr)
        = Except.ok (a, [accountCreatePayload name])) ∧
    accountCreatePayload name
      = Json.obj [("Name", Json.str name), ("AccountType", Json.str "Expense"),
          ("AccountSubType", Json.str "OtherMiscellaneousServiceCost")] ∧
    customerCreatePayload name
      = Json.obj [("Name", Json.str name), ("CompanyName", Json.str name)] := by
  refine ⟨?_, ?_, ?_, ?_, ?_, ?_, rfl, rfl⟩
  · intro c rest h
    simp [get_or_create_customer, h]
  · intro cr c h1 h2
    simp [get_or_create_customer, h1, h2]
  · intro v rest h
    simp [get_or_create_vendor, h]
  · intro cr v h1 h2
    simp [get_or_create_vendor, h1, h2]
  · intro a rest h
    simp [get_or_create_account, h]
  · intro cr a h1 h2
    simp [get_or_create_account, h1, h2]

/-- C4 witness: with zero matches for `"Acme"`, exactly one customer
create request is issued and the created reference is returned. -/
theorem c4_resolver_find_or_create_witness :
    get_or_create_customer "Acme"
        (Except.ok (Json.obj [("QueryResponse", Json.obj [])]))
        (Except.ok (Json.obj [("Customer",
            Json.obj [("Id", Json.str "5"), ("Name", Json.str "Acme")])]))
      = Except.ok (Json.obj [("Id", Json.str "5"), ("Name", Json.str "Acme")],
          [customerCreatePayload "Acme"]) :=
  (c4_resolver_find_or_create "Acme"
      (Json.obj [("QueryResponse", Json.obj [])])
      (Except.ok (Json.obj []))).2.1
    (Json.obj [("Customer",
        Json.obj [("Id", Json.str "5"), ("Name", Json.str "Acme")])])
    (Json.obj [("Id", Json.str "5"), ("Name", Json.str "Acme")]) rfl rfl

/-- C5: the invoice translator yields a single line item with the amount,
the placeholder `ItemRef`, a `TaxCodeRef` value of `"NON"` exactly when
the tax code is absent or empty (the tax code itself otherwise), the
customer referenced by name only, the document number, and `TxnDate` /
`DueDate` as ISO 8601 calendar dates with `null` when absent; the bill
translator analogously uses an `AccountBasedExpenseLineDetail` with the
expense account by name and contains no `ItemRef`. -/
theorem c5_translator_shape (inv : InvoiceRec) (b : BillRec) :
    (∃ line detail,
      jsonGet inv.to_quickbooks_json "Line" = some (Json.arr [line]) ∧
      jsonGet line "Amount" = some (Json.num inv.amount) ∧
      jsonGet line "DetailType" = some (Json.str "SalesItemLineDetail") ∧
      jsonGet line "SalesItemLineDetail" = some detail ∧
      jsonGet detail "ItemRef"
        = some (Json.obj [("value", Json.str "1"),
            ("name", Json.str "Services")]) ∧
      ((inv.tax_code = none ∨ inv.tax_code = some "") →
        jsonGet detail "TaxCodeRef"
          = some (Json.obj [("value", Json.str "NON")])) ∧
      (∀ s, inv.tax_code = some s → s ≠ "" →
        jsonGet detail "TaxCodeRef"
          = some (Json.obj [("value", Json.str s)]))) ∧
    jsonGet inv.to_quickbooks_json "CustomerRef"
      = some (Json.obj [("name", Json.str inv.customer_name)]) ∧
    jsonGet inv.to_quickbooks_json "DocNumber"
      = some (Json.str inv.invoice_number) ∧
    (inv.invoice_date = none →
      jsonGet inv.to_quickbooks_json "TxnDate" = some Json.null) ∧
    (∀ d, inv.invoice_date = some d →
      jsonGet inv.to_quickbooks_json "TxnDate"
        = some (Json.str d.isoformat)) ∧
    (inv.due_date = none →
      jsonGet inv.to_quickbooks_json "DueDate" = some Json.null) ∧
    (∀ d, inv.due_date = some d →
      jsonGet inv.to_quickbooks_json "DueDate"
        = some (Json.str d.isoformat)) ∧
    (∃ bline bdetail,
      jsonGet b.to_quickbooks_json "Line" = some (Json.arr [bline]) ∧
      jsonGet bline "Amount" = some (Json.num b.amount) ∧
      jsonGet bline "DetailType"
        = some (Json.str "AccountBasedExpenseLineDetail") ∧
      jsonGet bline "AccountBasedExpenseLineDetail" = some bdetail ∧
      jsonGet bdetail "AccountRef"
        = some (Json.obj [("name", Json.str b.expense_account)]) ∧
      jsonGet bdetail "ItemRef" = none ∧
      jsonGet bline "ItemRef" = none ∧
      jsonGet bline "SalesItemLineDetail" = none) ∧
    jsonGet b.to_quickbooks_json "VendorRef"
      = some (Json.obj [("name", Json.str b.vendor_name)]) ∧
    jsonGet b.to_quickbooks_json "DocNumber"
      = some (Json.str b.bill_number) ∧
    (b.bill_date = none →
      jsonGet b.to_quickbooks_json "TxnDate" = some Json.null) ∧
    (∀ d, b.bill_date = some d →
      jsonGet b.to_quickbooks_json "TxnDate"
        = some (Json.str d.isoformat)) ∧
    (b.due_date = none →
      jsonGet b.to_quickbooks_json "DueDate" = some Json.null) ∧
    (∀ d, b.due_date = some d →
      jsonGet b.to_quickbooks_json "DueDate"
        = some (Json.str d.isoformat)) := by
  refine ⟨⟨_, _, rfl, rfl, rfl, rfl, rfl, ?_, ?_⟩, rfl, rfl, ?_, ?_, ?_, ?_,
    ⟨_, _, rfl, rfl, rfl, rfl, rfl, rfl, rfl, rfl⟩, rfl, rfl, ?_, ?_, ?_, ?_⟩
  · rintro (h | h) <;> simp [jsonGet, assocGet, taxCodeValue, h]
  · intro s hs hne
    simp [jsonGet, assocGet, taxCodeValue, hs, hne]
  · intro h
    simp [InvoiceRec.to_quickbooks_json, jsonGet, assocGet, optDateJson, h]
  · intro d hd
    simp [InvoiceRec.to_quickbooks_json, jsonGet, assocGet, optDateJson, hd]
  · intro h
    simp [InvoiceRec.to_quickbooks_json, jsonGet, assocGet, optDateJson, h]
  · intro d hd
    simp [InvoiceRec.to_quickbooks_json, jsonGet, assocGet, optDateJson, hd]
  · intro h
    simp [BillRec.to_quickbooks_json, jsonGet, assocGet, optDateJson, h]
  · intro d hd
    simp [BillRec.to_quickbooks_json, jsonGet, assocGet, optDateJson, hd]
  · intro h
    simp [BillRec.to_quickbooks_json, jsonGet, assocGet, optDateJson, h]
  · intro d hd
    simp [BillRec.to_quickbooks_json, jsonGet, assocGet, optDateJson, hd]

/-- C5 witness: the sample invoice (no due date, no tax code) maps to a
`null` `DueDate` and the ISO form of its invoice date. -/
theorem c5_translator_shape_witness :
    jsonGet sampleInvoice.to_quickbooks_json "DueDate" = some Json.null ∧
    jsonGet sampleInvoice.to_quickbooks_json "TxnDate"
      = some (Json.str "2024-01-05") :=
  ⟨(c5_translator_shape sampleInvoice sampleBill).2.2.2.2.2.1 rfl,
   (c5_translator_shape sampleInvoice sampleBill).2.2.2.2.1
     ⟨2024, 1, 5⟩ rfl⟩

/-- C10: when the remote create call succeeds but the normalized created
object carries no `Id` key, the engine still records a success: the
document gets `quickbooks_id = None`, `uploaded_at` set, `upload_error`
cleared; the detail carries `quickbooks_id = None`; the successful count
is incremented; and the statistics query counts the record as pending,
not uploaded. -/
theorem c10_success_without_id (inv : InvoiceRec) (raw resp : Json)
    (now : Nat)
    (_hn : normalize_created "Invoice" raw = Except.ok resp)
    (hid : jsonGet resp "Id" = none) :
    (processInvoice inv (ApiOutcome.ok resp) now).1.quickbooks_id = none ∧
    (processInvoice inv (ApiOutcome.ok resp) now).1.uploaded_at
      = some now ∧
    (processInvoice inv (ApiOutcome.ok resp) now).1.upload_error = none ∧
    (processInvoice inv (ApiOutcome.ok resp) now).2.1.status
      = "success" ∧
    (processInvoice inv (ApiOutcome.ok resp) now).2.1.quickbooks_id
      = none ∧
    (∀ cs, (upload_invoices [(inv, ApiOutcome.ok resp)] cs
        now).1.successful = 1) ∧
    (get_upload_statistics [(processInvoice inv (ApiOutcome.ok resp)
        now).1] []).invoices.uploaded = 0 ∧
    (get_upload_statistics [(processInvoice inv (ApiOutcome.ok resp)
        now).1] []).invoices.pending = 1 := by
  have hs : jsonGetStr resp "Id" = none := by simp [jsonGetStr, hid]
  refine ⟨by simp [processInvoice, hs], rfl, rfl, rfl,
    by simp [processInvoice, hs], ?_, ?_, ?_⟩
  · intro cs
    simp [upload_invoices, uploadInvoicesLoop, processInvoice]
  · simp [get_upload_statistics, processInvoice, hs]
  · simp [get_upload_statistics, processInvoice, hs]

/-- C10 witness: a raw platform response `{Invoice: {DocNumber: ...}}`
normalizes to a created object without `Id`, and the resulting record
counts as pending. -/
theorem c10_success_without_id_witness :
    (get_upload_statistics
        [(processInvoice sampleInvoice (ApiOutcome.ok respWithoutId)
          0).1] []).invoices.pending = 1 :=
  (c10_success_without_id sampleInvoice
      (Json.obj [("Invoice", respWithoutId)]) respWithoutId 0 rfl
      rfl).2.2.2.2.2.2.2

end InvoiceFlow
